import Mathlib

/-!
Verification of the wasm96 host-side capability engine (wasm96-core).

This file gives a shallow embedding of the audio/video host functions of
`wasm96-core/src/av` (graphics rasterizer, audio mixer, guest-memory
accessor, key-value storage) and proves or refutes the specification
claims about them.

Machine integers are modelled as `Nat`/`Int` with explicit two's
complement wrapping (`% 2^32`, `wrap64`) exactly where the Rust source
performs fixed-width arithmetic that can wrap in release builds.
Fallible operations return `Option`/`Except`; a `none` result of a
framebuffer write models a Rust index-out-of-bounds panic.

The global state struct used by `av/mod.rs` (fields `video.framebuffer`,
`audio.host_queue`, `storage.kv`, ...) is not part of the sources; its
shape is fully determined by field usage in `av/mod.rs` and by section 3
of the specification, and the structures below follow that usage.
-/

namespace Wasm96

/-- `u32` modulus. -/
def u32Mod : Nat := 4294967296

/-- Two's complement wrap of an exact integer into `i64`, the semantics of
Rust release-mode `i64` arithmetic. -/
def wrap64 (x : Int) : Int :=
  (x + 9223372036854775808) % 18446744073709551616 - 9223372036854775808

/-- Two's complement wrap of an exact integer into `i32`. -/
def wrap32 (x : Int) : Int :=
  (x + 2147483648) % 4294967296 - 2147483648

/-- Reinterpret a `u32` value (a `Nat` below `2^32`) as `i32`, the effect of
Rust `as i32` on a `u32`. -/
def i32ofU32 (n : Nat) : Int :=
  if n < 2147483648 then (n : Int) else (n : Int) - 4294967296

/-- Rust `as usize` applied to an `i32` value on a 64-bit host
(sign-extension then reinterpretation). -/
def usizeOfI32 (v : Int) : Nat :=
  ((v + 18446744073709551616) % 18446744073709551616).toNat

/-- `sat_add_i16` from `av/utils.rs` (also duplicated in `av/mod.rs`): the
sum is computed exactly in `i32` (no overflow is possible for `i16`
inputs) and clamped to the `i16` range. -/
def sat_add_i16 (a b : Int) : Int :=
  if 32767 < a + b then 32767
  else if a + b < -32768 then -32768
  else a + b

/-- Errors from AV operations (`AvError` in `av/mod.rs`). -/
inductive AvError where
  | MissingMemory
  | MemoryReadFailed
deriving DecidableEq, Repr

/-- Contract of `wasmtime::Memory::read` (external collaborator): copying
`len` bytes starting at `ptr` succeeds exactly when the whole range
`[ptr, ptr+len)` lies inside the linear memory, and yields those bytes.
`ptr` and `len` are `u32` values widened to 64-bit `usize`, so the index
arithmetic is exact. -/
def memRead (mem : List Nat) (ptr len : Nat) : Option (List Nat) :=
  if ptr + len ≤ mem.length then some ((mem.drop ptr).take len) else none

/-- Contract of `wasmtime::Memory::write` (external collaborator): the
write succeeds exactly when the destination range is inside the linear
memory. -/
def memWrite (mem : List Nat) (ptr : Nat) (data : List Nat) : Option (List Nat) :=
  if ptr + data.length ≤ mem.length then
    some (mem.take ptr ++ data ++ mem.drop (ptr + data.length))
  else none

/-- `read_guest_bytes` from `av/utils.rs` (duplicated in `av/mod.rs`): the
guest memory export is `none` when the guest exports no memory named
"memory"; otherwise the requested range is copied out of guest memory. -/
def read_guest_bytes (memOpt : Option (List Nat)) (ptr len : Nat) :
    Except AvError (List Nat) :=
  match memOpt with
  | none => Except.error AvError.MissingMemory
  | some mem =>
    match memRead mem ptr len with
    | some data => Except.ok data
    | none => Except.error AvError.MemoryReadFailed

/-- Host-resident framebuffer state, the `video` part of the global state
struct used by `av/mod.rs` (spec section 3, FrameBuffer and DrawState):
`width`/`height` are `u32`, `framebuffer` is a row-major list of packed
XRGB8888 `u32` pixels, `draw_color` the current drawing color. The
default-initialized state has zero size and an empty buffer. -/
structure VideoState where
  width : Nat
  height : Nat
  draw_color : Nat
  framebuffer : List Nat
deriving DecidableEq, Repr

/-- The default (process start / post-unload) video state. -/
def VideoState.init : VideoState :=
  { width := 0, height := 0, draw_color := 0, framebuffer := [] }

/-- `graphics_set_size` from `av/graphics.rs` (duplicated in `av/mod.rs`):
zero width or height is an early return; otherwise the stored size is
updated and the buffer is resized to `(width * height) as usize` — a
`u32` multiplication, which wraps modulo `2^32` in release builds — and
cleared to black (`resize` followed by `fill(0)` yields a buffer of that
many zeros). -/
def graphics_set_size (s : VideoState) (width height : Nat) : VideoState :=
  if width = 0 ∨ height = 0 then s
  else
    { s with
      width := width
      height := height
      framebuffer := List.replicate ((width * height) % u32Mod) 0 }

/-- A framebuffer store `fb[idx] = color`; `none` models the Rust panic
when `idx` is out of bounds. -/
def tryWrite (fb : List Nat) (idx : Nat) (color : Nat) : Option (List Nat) :=
  if idx < fb.length then some (fb.set idx color) else none

/-- `graphics_point` from `av/graphics.rs` (duplicated in `av/mod.rs`):
the coordinate guard compares against `width as i32`/`height as i32`;
inside the guard the index `(y * w + x) as usize` is computed in `i32`
(wrapping) and then cast to `usize`, and the framebuffer is indexed
unconditionally. -/
def graphics_point (s : VideoState) (x y : Int) : Option VideoState :=
  let w := i32ofU32 s.width
  let h := i32ofU32 s.height
  if 0 ≤ x ∧ x < w ∧ 0 ≤ y ∧ y < h then
    (tryWrite s.framebuffer (usizeOfI32 (wrap32 (y * w + x))) s.draw_color).map
      (fun fb => { s with framebuffer := fb })
  else some s

/-- `tri_edge` from `av/utils.rs` (duplicated in `av/mod.rs`): the edge
function `(c.0 - a.0) * (b.1 - a.1) - (c.1 - a.1) * (b.0 - a.0)`
computed in `i64`. The widening of the `i32` inputs and the two
subtractions of widened values are exact; the products and the final
subtraction can wrap, which `wrap64` captures. -/
def tri_edge (a b c : Int × Int) : Int :=
  wrap64 ((c.1 - a.1) * (b.2 - a.2) - (c.2 - a.2) * (b.1 - a.1))

/-- Inclusive integer range `lo..=hi` as a list (empty when `hi < lo`). -/
def intRangeIncl (lo hi : Int) : List Int :=
  (List.range (hi + 1 - lo).toNat).map (fun i => lo + i)

/-- One inner-loop iteration of `graphics_triangle`: evaluate the three
edge functions at pixel `p = (x, y)`, multiplied by the normalization
`sign` (an `i64` product, wrapping), and store the draw color when all
are nonnegative. Inside the loop `y ≥ 0` and `x ≥ 0`, so the `usize`
casts are `toNat`. -/
def triPixel (v0 v1 v2 : Int × Int) (sign : Int) (wn : Nat) (color : Nat)
    (ofb : Option (List Nat)) (x y : Int) : Option (List Nat) :=
  ofb.bind (fun fb =>
    if 0 ≤ wrap64 (tri_edge v1 v2 (x, y) * sign) ∧
       0 ≤ wrap64 (tri_edge v2 v0 (x, y) * sign) ∧
       0 ≤ wrap64 (tri_edge v0 v1 (x, y) * sign) then
      tryWrite fb (y.toNat * wn + x.toNat) color
    else some fb)

/-- The bounding-box fill loop of `graphics_triangle` (`av/mod.rs`),
entered after the degenerate-area check: clip the vertex bounding box to
the framebuffer, normalize the edge sign against the triangle's own
signed area, and test every pixel of the clipped box. -/
def triFill (s : VideoState) (x1 y1 x2 y2 x3 y3 : Int) : Option VideoState :=
  let w := i32ofU32 s.width
  let v0 := (x1, y1)
  let v1 := (x2, y2)
  let v2 := (x3, y3)
  let area := tri_edge v0 v1 v2
  let min_x := max (min (min x1 x2) x3) 0
  let max_x := min (max (max x1 x2) x3) (w - 1)
  let min_y := max (min (min y1 y2) y3) 0
  let max_y := min (max (max y1 y2) y3) (i32ofU32 s.height - 1)
  if min_x > max_x ∨ min_y > max_y then some s
  else
    let sign : Int := if 0 < area then 1 else -1
    ((intRangeIncl min_y max_y).foldl (fun ofb y =>
      (intRangeIncl min_x max_x).foldl
        (fun ofb2 x => triPixel v0 v1 v2 sign w.toNat s.draw_color ofb2 x y)
        ofb) (some s.framebuffer)).map
      (fun fb => { s with framebuffer := fb })

/-- `graphics_triangle` from `av/mod.rs`: early return when the stored
size reinterpreted as `i32` is nonpositive or when the (wrapped) signed
area is zero; otherwise fill the clipped bounding box. -/
def graphics_triangle (s : VideoState) (x1 y1 x2 y2 x3 y3 : Int) : Option VideoState :=
  if i32ofU32 s.width ≤ 0 ∨ i32ofU32 s.height ≤ 0 then some s
  else if tri_edge (x1, y1) (x2, y2) (x3, y3) = 0 then some s
  else triFill s x1 y1 x2 y2 x3 y3

/-- Validity of a byte sequence as UTF-8, the acceptance condition of
`core::str::from_utf8` (external collaborator, RFC 3629): ASCII bytes,
two-byte sequences `C2..DF` + continuation, three-byte sequences with
the `E0`/`ED` special ranges excluding overlongs and surrogates, and
four-byte sequences with the `F0`/`F4` special ranges capping at
`U+10FFFF`. -/
def validUtf8 : List Nat → Bool
  | [] => true
  | b0 :: tail =>
    if b0 ≤ 0x7F then validUtf8 tail
    else if 0xC2 ≤ b0 ∧ b0 ≤ 0xDF then
      match tail with
      | b1 :: t => decide (0x80 ≤ b1 ∧ b1 ≤ 0xBF) && validUtf8 t
      | [] => false
    else if 0xE0 ≤ b0 ∧ b0 ≤ 0xEF then
      match tail with
      | b1 :: b2 :: t =>
        decide ((if b0 = 0xE0 then 0xA0 else 0x80) ≤ b1 ∧
                b1 ≤ (if b0 = 0xED then 0x9F else 0xBF) ∧
                0x80 ≤ b2 ∧ b2 ≤ 0xBF) && validUtf8 t
      | _ => false
    else if 0xF0 ≤ b0 ∧ b0 ≤ 0xF4 then
      match tail with
      | b1 :: b2 :: b3 :: t =>
        decide ((if b0 = 0xF0 then 0x90 else 0x80) ≤ b1 ∧
                b1 ≤ (if b0 = 0xF4 then 0x8F else 0xBF) ∧
                0x80 ≤ b2 ∧ b2 ≤ 0xBF ∧ 0x80 ≤ b3 ∧ b3 ≤ 0xBF) && validUtf8 t
      | _ => false
    else false

/-- The key-value store `storage.kv` of the global state (spec section 3,
generic KV resource). Rust keys are `String`s built from the exact guest
key bytes, and UTF-8 decoding is injective, so the store is modelled as
an association list keyed by the raw key bytes. -/
abbrev KV : Type := List (List Nat × List Nat)

/-- Lookup in the key-value store (`HashMap::get`). -/
def kvGet (kv : KV) (k : List Nat) : Option (List Nat) :=
  match kv.find? (fun p => p.1 = k) with
  | some p => some p.2
  | none => none

/-- Insertion into the key-value store (`HashMap::insert`): replaces the
value under an existing key, otherwise adds a new entry. -/
def kvInsert (kv : KV) (k v : List Nat) : KV :=
  if kv.any (fun p => p.1 = k) then
    kv.map (fun p => if p.1 = k then (k, v) else p)
  else kv ++ [(k, v)]

/-- `guest_alloc` from `av/utils.rs` (duplicated in `av/mod.rs`): the
guest allocator export is not wired through the core, so the function
unconditionally returns `None`. -/
def guest_alloc (len : Nat) : Option Nat :=
  none

/-- `storage_save` from `av/storage.rs` (duplicated in `av/mod.rs`): read
the key bytes, require them to be valid UTF-8, read the data bytes, then
insert; every failure is an early return that leaves the store
untouched. `memOpt = none` models a null `memory_wasmtime` pointer. -/
def storage_save (kv : KV) (memOpt : Option (List Nat))
    (key_ptr key_len data_ptr data_len : Nat) : KV :=
  match memOpt with
  | none => kv
  | some mem =>
    match memRead mem key_ptr key_len with
    | none => kv
    | some key_bytes =>
      if validUtf8 key_bytes then
        match memRead mem data_ptr data_len with
        | none => kv
        | some data => kvInsert kv key_bytes data
      else kv

/-- `storage_load` from `av/storage.rs` (duplicated in `av/mod.rs`): read
and decode the key, look it up, ask `guest_alloc` for a destination,
write the value into guest memory and return `(ptr << 32) | len`; every
failure path returns `0`. -/
def storage_load (kv : KV) (memOpt : Option (List Nat))
    (key_ptr key_len : Nat) : Nat :=
  match memOpt with
  | none => 0
  | some mem =>
    match memRead mem key_ptr key_len with
    | none => 0
    | some key_bytes =>
      if validUtf8 key_bytes then
        match kvGet kv key_bytes with
        | none => 0
        | some data =>
          match guest_alloc data.length with
          | none => 0
          | some dst_ptr =>
            match memWrite mem dst_ptr data with
            | none => 0
            | some _ => dst_ptr * u32Mod + data.length
      else 0

/-- An audio playback channel, the `crate::state::AudioChannel` struct
(spec section 3; its field set is also pinned down by the construction
sites in `av/mod.rs`): interleaved stereo `i16` PCM, a Q8.8 volume, a
signed pan, a loop flag and a playback position in frames. -/
structure AudioChannel where
  active : Bool
  volume_q8_8 : Int
  pan_i16 : Int
  loop_enabled : Bool
  pcm_stereo : List Int
  position_frames : Nat
  sample_rate : Nat
deriving DecidableEq, Repr

/-- The `audio` part of the global state used by `av/mod.rs` (spec
section 3, AudioState): output sample rate, the FIFO of guest-pushed raw
`i16` samples, and the playback channels in creation order. -/
structure AudioState where
  sample_rate : Nat
  host_queue : List Int
  channels : List AudioChannel
deriving DecidableEq, Repr

/-- The per-frame channel mixing loop of `audio_drain_host`: for each of
`n` frames starting at source frame `start`, scale the left/right
samples and saturating-add them into the output buffer. The scaling
`(sample as f32 * volume * pan) as i16` is 32-bit floating-point
arithmetic, which is outside this embedding; it is abstracted as the
parameters `sl`/`sr` (left/right scaled sample as a function of the
channel and the raw sample). All indexing in this loop is in bounds in
the source, so `getD`/`set` coincide with the Rust accesses. -/
def mixChannelFrames (sl sr : AudioChannel → Int → Int) (ch : AudioChannel)
    (start n : Nat) (mixed : List Int) : List Int :=
  (List.range n).foldl (fun m i =>
    let l := sl ch (ch.pcm_stereo.getD ((start + i) * 2) 0)
    let r := sr ch (ch.pcm_stereo.getD ((start + i) * 2 + 1) 0)
    let m1 := m.set (i * 2) (sat_add_i16 (m.getD (i * 2) 0) l)
    m1.set (i * 2 + 1) (sat_add_i16 (m1.getD (i * 2 + 1) 0) r)) mixed

/-- One iteration of the channel loop in `audio_drain_host`: inactive
channels are skipped; an exhausted channel either rewinds to frame 0
(when looping) or is deactivated and skipped; otherwise
`min(remaining, target)` frames are mixed and the position advances. The
updated channel list is accumulated in order. -/
def mixOneChannel (sl sr : AudioChannel → Int → Int) (target : Nat)
    (acc : List Int × List AudioChannel) (ch : AudioChannel) :
    List Int × List AudioChannel :=
  if ch.active = false then (acc.1, acc.2 ++ [ch])
  else
    let channel_frames := ch.pcm_stereo.length / 2
    if channel_frames ≤ ch.position_frames ∧ ch.loop_enabled = false then
      (acc.1, acc.2 ++ [{ ch with active := false }])
    else
      let start := if channel_frames ≤ ch.position_frames then 0 else ch.position_frames
      let n := min (channel_frames - start) target
      (mixChannelFrames sl sr ch start n acc.1,
       acc.2 ++ [{ ch with position_frames := start + n }])

/-- `audio_drain_host` from `av/mod.rs`: with no libretro runtime handle
(`handle = false`) return 0 immediately; otherwise compute the target
frame count (`max_frames`, floored at the backend minimum
`sample_rate / 60`), build a silence-initialized interleaved stereo
buffer, saturating-add as many queued raw samples as available, mix
every active channel, upload the buffer, and report
`mixed.len() / 2` frames. Returns (reported frame count, uploaded
buffer if any, updated audio state). -/
def audio_drain_host (sl sr : AudioChannel → Int → Int) (handle : Bool)
    (st : AudioState) (max_frames : Nat) :
    Nat × Option (List Int) × AudioState :=
  if handle = false then (0, none, st)
  else
    let min_samples_per_run := (st.sample_rate / 60) * 2
    let target_frames :=
      if max_frames = 0 then min_samples_per_run / 2
      else max max_frames (min_samples_per_run / 2)
    let mixed0 : List Int := List.replicate (target_frames * 2) 0
    let available_frames := st.host_queue.length / 2
    let frames_to_take := min available_frames target_frames
    let samples_to_take := frames_to_take * 2
    let mixed1 := List.zipWith sat_add_i16 mixed0 (st.host_queue.take samples_to_take)
                  ++ mixed0.drop samples_to_take
    let res := st.channels.foldl (mixOneChannel sl sr target_frames) (mixed1, [])
    (res.1.length / 2, some res.1,
     { st with host_queue := st.host_queue.drop samples_to_take, channels := res.2 })

set_option maxRecDepth 10000

/-- C6: for i16 inputs, the mixer's saturating addition equals the exact
sum clamped to the i16 range; in particular a sum above `i16::MAX`
yields `i16::MAX` (never a wrapped negative value), and the result is
always inside the i16 range. -/
theorem c6_sat_add_i16_clamps (a b : Int)
    (ha : -32768 ≤ a ∧ a ≤ 32767) (hb : -32768 ≤ b ∧ b ≤ 32767) :
    sat_add_i16 a b = min (max (a + b) (-32768)) 32767 ∧
    (32767 < a + b → sat_add_i16 a b = 32767) ∧
    -32768 ≤ sat_add_i16 a b ∧ sat_add_i16 a b ≤ 32767 := by
  unfold sat_add_i16
  split_ifs <;> omega

/-- Witness for C6 at `a = b = 30000`: the overflowing sum clamps to
32767. -/
theorem c6_sat_add_i16_clamps_witness : sat_add_i16 30000 30000 = 32767 :=
  (c6_sat_add_i16_clamps 30000 30000 (by decide) (by decide)).2.1 (by decide)

/-- C9: `graphics_set_size` with a zero width or height is a complete
no-op: the whole video state (stored size, draw color, every pixel) is
returned unchanged. -/
theorem c9_set_size_zero_noop (s : VideoState) (width height : Nat)
    (h0 : width = 0 ∨ height = 0) :
    graphics_set_size s width height = s := by
  unfold graphics_set_size
  rw [if_pos h0]

/-- Witness for C9 at a concrete nonempty state and `width = 0`. -/
theorem c9_set_size_zero_noop_witness :
    graphics_set_size ⟨7, 5, 2, [1, 2, 3]⟩ 0 9 = ⟨7, 5, 2, [1, 2, 3]⟩ :=
  c9_set_size_zero_noop ⟨7, 5, 2, [1, 2, 3]⟩ 0 9 (Or.inl rfl)

/-- C8: three exactly collinear vertices (zero signed area) make
`graphics_triangle` a no-op: the state, in particular every framebuffer
pixel, is returned unchanged. -/
theorem c8_triangle_collinear_noop (s : VideoState) (x1 y1 x2 y2 x3 y3 : Int)
    (hcol : (x3 - x1) * (y2 - y1) - (y3 - y1) * (x2 - x1) = 0) :
    graphics_triangle s x1 y1 x2 y2 x3 y3 = some s := by
  have harea : tri_edge (x1, y1) (x2, y2) (x3, y3) = 0 := by
    simp only [tri_edge, wrap64]
    rw [hcol]
    decide
  unfold graphics_triangle
  rw [harea]
  split <;> simp

/-- Witness for C8: the collinear triangle (1,1)-(5,5)-(10,10) of the
spec's test scenario leaves a 16x16 framebuffer unchanged. -/
theorem c8_triangle_collinear_noop_witness :
    graphics_triangle ⟨16, 16, 3, List.replicate 256 0⟩ 1 1 5 5 10 10 =
      some ⟨16, 16, 3, List.replicate 256 0⟩ :=
  c8_triangle_collinear_noop ⟨16, 16, 3, List.replicate 256 0⟩ 1 1 5 5 10 10 (by decide)

/-- C1 (refuted, code bug): a guest calling
`graphics_set_size(65536, 65536)` makes the stored size 65536x65536
while the `u32` product `width * height` wraps to 0, so the framebuffer
is left with 0 pixels; the subsequent guest call `graphics_point(0, 0)`
passes the bounds guard and indexes past the framebuffer's end (`none`
models the Rust index-out-of-bounds panic; in debug builds the
multiplication itself aborts on overflow). -/
theorem c1_guest_reachable_oob_panic :
    (graphics_set_size VideoState.init 65536 65536).width = 65536 ∧
    (graphics_set_size VideoState.init 65536 65536).height = 65536 ∧
    graphics_point (graphics_set_size VideoState.init 65536 65536) 0 0 = none := by
  decide

/-- C7 (refuted, code bug): after `graphics_set_size(65536, 65536)` the
framebuffer length is 0 while `width * height = 2^32`, so the invariant
`pixels.len() == width * height` does not hold and the buffer was not
reallocated to `width * height` pixels. -/
theorem c7_invariant_broken_by_resize_overflow :
    (graphics_set_size VideoState.init 65536 65536).framebuffer.length = 0 ∧
    (graphics_set_size VideoState.init 65536 65536).width *
        (graphics_set_size VideoState.init 65536 65536).height = 4294967296 ∧
    (graphics_set_size VideoState.init 65536 65536).framebuffer.length ≠
      (graphics_set_size VideoState.init 65536 65536).width *
        (graphics_set_size VideoState.init 65536 65536).height := by
  decide

/-- C3 (refuted, code bug): a non-collinear triangle whose exact signed
area is `-2^63` breaks winding invariance. With vertices
A=(-357913941,-1610612737), B=(1789569707,-536870913),
C=(-1431655765,2147483647), the signed area of (A,B,C) is exactly
`i64::MIN` while the area of (A,C,B) is `+2^63`, which wraps to
`i64::MIN` as well (in debug builds it aborts on overflow), so the sign
normalization fails to flip: on a 1x1 framebuffer, order (A,B,C) fills
pixel (0,0) and order (A,C,B) fills nothing. -/
theorem c3_winding_not_invariant :
    graphics_triangle ⟨1, 1, 7, [0]⟩ (-357913941) (-1610612737) 1789569707 (-536870913)
        (-1431655765) 2147483647 ≠
      graphics_triangle ⟨1, 1, 7, [0]⟩ (-357913941) (-1610612737) (-1431655765) 2147483647
        1789569707 (-536870913) := by
  decide

/-- C4 (refuted, code bug): `storage_save` stores [1,2,3] under the
UTF-8 key "k" (byte 107) and the key is then present in the store, yet
`storage_load` for that key returns 0 — the packed pointer/length the
claim requires is never produced, because `guest_alloc` is an unwired
stub that always returns `None`. -/
theorem c4_storage_load_present_key_returns_zero :
    kvGet (storage_save [] (some [107, 1, 2, 3]) 0 1 1 3) [107] = some [1, 2, 3] ∧
    storage_load (storage_save [] (some [107, 1, 2, 3]) 0 1 1 3)
      (some [107, 1, 2, 3]) 0 1 = 0 := by
  decide

/-- C2: the guest memory accessor returns `MissingMemory` exactly when no
guest memory is registered; with a registered memory it returns a copy
of exactly `len` bytes starting at `ptr` when the range fits, and
`MemoryReadFailed` exactly when the range exceeds the memory size (the
`u32` offset and length are widened to 64-bit `usize`, so the address
arithmetic cannot overflow). -/
theorem c2_read_guest_bytes_contract (mem : List Nat) (ptr len : Nat) :
    read_guest_bytes none ptr len = Except.error AvError.MissingMemory ∧
    (∀ e, read_guest_bytes (some mem) ptr len = Except.error e →
      e = AvError.MemoryReadFailed) ∧
    (ptr + len ≤ mem.length →
      read_guest_bytes (some mem) ptr len = Except.ok ((mem.drop ptr).take len) ∧
      ((mem.drop ptr).take len).length = len) ∧
    (mem.length < ptr + len →
      read_guest_bytes (some mem) ptr len = Except.error AvError.MemoryReadFailed) := by
  by_cases h : ptr + len ≤ mem.length
  · have hok : read_guest_bytes (some mem) ptr len =
        Except.ok ((mem.drop ptr).take len) := by
      simp [read_guest_bytes, memRead, h]
    refine ⟨rfl, ?_, ?_, ?_⟩
    · intro e he
      rw [hok] at he
      cases he
    · intro _
      refine ⟨hok, ?_⟩
      simp only [List.length_take, List.length_drop]
      omega
    · intro hlt
      omega
  · have herr : read_guest_bytes (some mem) ptr len =
        Except.error AvError.MemoryReadFailed := by
      simp [read_guest_bytes, memRead, h]
    refine ⟨rfl, ?_, ?_, fun _ => herr⟩
    · intro e he
      rw [herr] at he
      cases he
      rfl
    · intro hle
      exact absurd hle h

/-- Witness for C2: reading 2 bytes at offset 1 of a 3-byte memory
succeeds and returns exactly 2 bytes. -/
theorem c2_read_guest_bytes_contract_witness :
    read_guest_bytes (some [9, 8, 7]) 1 2 =
      Except.ok ((([9, 8, 7] : List Nat).drop 1).take 2) ∧
    ((([9, 8, 7] : List Nat).drop 1).take 2).length = 2 :=
  (c2_read_guest_bytes_contract [9, 8, 7] 1 2).2.2.1 (by decide)

/-- C10: `storage_save` is atomic. With no registered memory, with an
out-of-range key read, with key bytes that are not valid UTF-8, or with
an out-of-range data read, the key-value store is left entirely
unchanged (and the call surfaces no error — the function's return type
is unit); when everything succeeds the store gains exactly the complete
value under the decoded key. The final disjunct states atomicity
globally: the result is the untouched store or a single complete
insertion. -/
theorem c10_storage_save_atomic (kv : KV) (mem : List Nat) (kp kl dp dl : Nat) :
    storage_save kv none kp kl dp dl = kv ∧
    (mem.length < kp + kl → storage_save kv (some mem) kp kl dp dl = kv) ∧
    (∀ kb, memRead mem kp kl = some kb → validUtf8 kb = false →
      storage_save kv (some mem) kp kl dp dl = kv) ∧
    (mem.length < dp + dl → storage_save kv (some mem) kp kl dp dl = kv) ∧
    (∀ kb d, memRead mem kp kl = some kb → validUtf8 kb = true →
      memRead mem dp dl = some d →
      storage_save kv (some mem) kp kl dp dl = kvInsert kv kb d) ∧
    (storage_save kv (some mem) kp kl dp dl = kv ∨
      ∃ kb d, memRead mem kp kl = some kb ∧ validUtf8 kb = true ∧
        memRead mem dp dl = some d ∧
        storage_save kv (some mem) kp kl dp dl = kvInsert kv kb d) := by
  cases hk : memRead mem kp kl with
  | none =>
    have hres : storage_save kv (some mem) kp kl dp dl = kv := by
      simp [storage_save, hk]
    exact ⟨rfl, fun _ => hres, fun kb hkb _ => Option.noConfusion hkb, fun _ => hres,
      fun kb d hkb _ _ => Option.noConfusion hkb, Or.inl hres⟩
  | some kb0 =>
    by_cases hv : validUtf8 kb0 = true
    · cases hd : memRead mem dp dl with
      | none =>
        have hres : storage_save kv (some mem) kp kl dp dl = kv := by
          simp [storage_save, hk, hv, hd]
        exact ⟨rfl, fun _ => hres, fun _ _ _ => hres, fun _ => hres,
          fun kb d _ _ hd2 => Option.noConfusion hd2, Or.inl hres⟩
      | some d0 =>
        have hres : storage_save kv (some mem) kp kl dp dl = kvInsert kv kb0 d0 := by
          simp [storage_save, hk, hv, hd]
        have hkle : kp + kl ≤ mem.length := by
          by_contra hc
          simp [memRead, hc] at hk
        have hdle : dp + dl ≤ mem.length := by
          by_contra hc
          simp [memRead, hc] at hd
        refine ⟨rfl, fun hlt => absurd hkle (by omega), ?_, fun hlt => absurd hdle (by omega),
          ?_, Or.inr ⟨kb0, d0, rfl, hv, rfl, hres⟩⟩
        · intro kb hkb hvf
          injection hkb with hkb2
          subst hkb2
          rw [hvf] at hv
          exact Bool.noConfusion hv
        · intro kb d hkb _ hd2
          injection hkb with hkb2
          subst hkb2
          injection hd2 with hd3
          subst hd3
          exact hres
    · have hvf : validUtf8 kb0 = false := by
        cases hb : validUtf8 kb0
        · rfl
        · exact absurd hb hv
      have hres : storage_save kv (some mem) kp kl dp dl = kv := by
        simp [storage_save, hk, hvf]
      refine ⟨rfl, fun _ => hres, fun _ _ _ => hres, fun _ => hres, ?_, Or.inl hres⟩
      intro kb d hkb hvt _
      injection hkb with hkb2
      subst hkb2
      exact absurd hvt hv

/-- Witness for C10: saving value [1,2] under the valid UTF-8 key "k"
(byte 107) from a 3-byte guest memory performs exactly the insertion. -/
theorem c10_storage_save_atomic_witness :
    storage_save [] (some [107, 1, 2]) 0 1 1 2 = kvInsert [] [107] [1, 2] :=
  (c10_storage_save_atomic [] [107, 1, 2] 0 1 1 2).2.2.2.2.1 [107] [1, 2]
    (by decide) (by decide) (by decide)

/-- A fold whose step preserves list length preserves list length. -/
theorem foldl_length_inv {α : Type} (f : List Int → α → List Int)
    (hf : ∀ m a, (f m a).length = m.length) :
    ∀ (l : List α) (m : List Int), (l.foldl f m).length = m.length := by
  intro l
  induction l with
  | nil => intro m; rfl
  | cons a t ih =>
    intro m
    rw [List.foldl_cons, ih, hf]

/-- Mixing `n` channel frames into the output buffer never changes the
buffer's length. -/
theorem mixChannelFrames_length (sl sr : AudioChannel → Int → Int)
    (ch : AudioChannel) (start n : Nat) (m : List Int) :
    (mixChannelFrames sl sr ch start n m).length = m.length := by
  unfold mixChannelFrames
  exact foldl_length_inv _ (fun m i => by simp) (List.range n) m

/-- One channel-loop iteration never changes the output buffer's
length. -/
theorem mixOneChannel_fst_length (sl sr : AudioChannel → Int → Int)
    (target : Nat) (acc : List Int × List AudioChannel) (ch : AudioChannel) :
    (mixOneChannel sl sr target acc ch).1.length = acc.1.length := by
  unfold mixOneChannel
  by_cases h1 : ch.active = false
  · rw [if_pos h1]
  · rw [if_neg h1]
    by_cases h2 : ch.pcm_stereo.length / 2 ≤ ch.position_frames ∧ ch.loop_enabled = false
    · rw [if_pos h2]
    · rw [if_neg h2]
      exact mixChannelFrames_length sl sr ch _ _ acc.1

/-- The whole channel loop never changes the output buffer's length. -/
theorem channelsFold_fst_length (sl sr : AudioChannel → Int → Int) (target : Nat) :
    ∀ (chs : List AudioChannel) (m : List Int) (cs : List AudioChannel),
      ((chs.foldl (mixOneChannel sl sr target) (m, cs)).1).length = m.length := by
  intro chs
  induction chs with
  | nil => intro m cs; rfl
  | cons ch t ih =>
    intro m cs
    rw [List.foldl_cons]
    exact (ih (mixOneChannel sl sr target (m, cs) ch).1
        (mixOneChannel sl sr target (m, cs) ch).2).trans
      (mixOneChannel_fst_length sl sr target (m, cs) ch)

/-- The channel loop leaves the output buffer untouched when every
channel is inactive. -/
theorem channelsFold_inactive (sl sr : AudioChannel → Int → Int) (target : Nat) :
    ∀ (chs : List AudioChannel), (∀ ch ∈ chs, ch.active = false) →
      ∀ (m : List Int) (cs : List AudioChannel),
        (chs.foldl (mixOneChannel sl sr target) (m, cs)).1 = m := by
  intro chs
  induction chs with
  | nil => intro _ m cs; rfl
  | cons ch t ih =>
    intro hall m cs
    rw [List.foldl_cons]
    have hstep : mixOneChannel sl sr target (m, cs) ch = (m, cs ++ [ch]) := by
      simp [mixOneChannel, hall ch (by simp)]
    rw [hstep]
    exact ih (fun c hc => hall c (List.mem_cons_of_mem ch hc)) m (cs ++ [ch])

/-- Draining queued samples into the silence buffer preserves its
length (the number of drained samples never exceeds either list). -/
theorem mixQueue_length (mixed0 q : List Int) (k : Nat)
    (hk : k ≤ mixed0.length) (hq : k ≤ q.length) :
    (List.zipWith sat_add_i16 mixed0 (q.take k) ++ mixed0.drop k).length =
      mixed0.length := by
  simp only [List.length_append, List.length_zipWith, List.length_take, List.length_drop]
  omega

/-- With an output sink, the number of frames reported by
`audio_drain_host` is exactly `max(max_frames, sample_rate/60)`. -/
theorem audio_drain_host_count (sl sr : AudioChannel → Int → Int)
    (st : AudioState) (mf : Nat) :
    (audio_drain_host sl sr true st mf).1 = max mf (st.sample_rate / 60) := by
  have h2 : (0 : Nat) < 2 := by norm_num
  simp only [audio_drain_host, if_neg (show ¬(true = false) by decide)]
  rw [channelsFold_fst_length]
  rw [mixQueue_length]
  · rw [List.length_replicate, Nat.mul_div_cancel _ h2]
    by_cases h0 : mf = 0
    · simp [h0, Nat.mul_div_cancel _ h2]
    · rw [if_neg h0, Nat.mul_div_cancel _ h2]
  · rw [List.length_replicate]
    omega
  · generalize (if mf = 0 then st.sample_rate / 60 * 2 / 2
      else max mf (st.sample_rate / 60 * 2 / 2)) = T
    omega

/-- With an empty host queue and no active channel, the uploaded buffer
of `drain(0)` is entirely silence. -/
theorem audio_drain_host_silent (sl sr : AudioChannel → Int → Int)
    (st : AudioState) (hq : st.host_queue = [])
    (hin : ∀ ch ∈ st.channels, ch.active = false) :
    (audio_drain_host sl sr true st 0).2.1 =
      some (List.replicate (st.sample_rate / 60 * 2) 0) := by
  have h2 : (0 : Nat) < 2 := by norm_num
  simp only [audio_drain_host, if_neg (show ¬(true = false) by decide)]
  rw [channelsFold_inactive sl sr _ st.channels hin]
  rw [hq]
  simp only [List.take_nil, List.zipWith_nil_right, List.nil_append, List.length_nil,
    Nat.zero_div, List.drop_replicate, eq_self_iff_true, if_true, Nat.zero_min,
    Nat.zero_mul, Nat.sub_zero]
  rw [Nat.mul_div_cancel _ h2]

/-- C5: `audio_drain_host` returns 0 when no output sink exists; with a
sink it emits and returns exactly `max(max_frames, sample_rate/60)`
stereo frames (with `sample_rate/60` as the target when
`max_frames = 0`); and `drain(0)` with an empty host queue and no
active channel still reports at least `sample_rate/60` frames and
uploads a buffer that is entirely silence. The floating-point per-sample
volume/pan scaling is abstracted by the parameters `sl`, `sr`; none of
the stated conclusions depend on it. -/
theorem c5_audio_drain_host_spec (sl sr : AudioChannel → Int → Int)
    (st : AudioState) (max_frames : Nat) :
    (audio_drain_host sl sr false st max_frames).1 = 0 ∧
    (audio_drain_host sl sr true st max_frames).1 =
      max max_frames (st.sample_rate / 60) ∧
    (st.host_queue = [] → (∀ ch ∈ st.channels, ch.active = false) →
      (audio_drain_host sl sr true st 0).2.1 =
        some (List.replicate (st.sample_rate / 60 * 2) 0) ∧
      st.sample_rate / 60 ≤ (audio_drain_host sl sr true st 0).1) := by
  refine ⟨rfl, audio_drain_host_count sl sr st max_frames, fun hq hin =>
    ⟨audio_drain_host_silent sl sr st hq hin, ?_⟩⟩
  rw [audio_drain_host_count]
  exact Nat.le_max_right _ _

/-- Witness for C5 at sample rate 120, empty queue, no channels:
`drain(0)` reports 2 frames and uploads 4 zero samples. -/
theorem c5_audio_drain_host_spec_witness :
    (audio_drain_host (fun _ x => x) (fun _ x => x) true ⟨120, [], []⟩ 0).2.1 =
      some (List.replicate ((120 : Nat) / 60 * 2) 0) ∧
    (120 : Nat) / 60 ≤ (audio_drain_host (fun _ x => x) (fun _ x => x) true ⟨120, [], []⟩ 0).1 :=
  (c5_audio_drain_host_spec (fun _ x => x) (fun _ x => x) ⟨120, [], []⟩ 0).2.2 rfl
    (by intro ch h; exact absurd h (List.not_mem_nil ch))

end Wasm96
